import Mathlib

/-!
Verification development for the mss_transmeta stream-remapping and
buffered-flush pipeline (`lib/mss_transmeta/core/client.py` and
`lib/mss_transmeta/core/util.py`).

The Python source is shallowly embedded: pure fragments become Lean
functions, stateful methods become explicit state passing, and fallible
code returns `Except PyError`.  Timestamps are modelled as natural
numbers; sample batches (obspy traces) are modelled by their identity
quadruple together with the time segments on which data is present.
-/

set_option autoImplicit false

namespace MssTransmeta

/-- Decidable equality for `Except`, needed to evaluate embedded
fallible code on concrete inputs. -/
instance exceptDecEq {ε α : Type} [DecidableEq ε] [DecidableEq α] :
    DecidableEq (Except ε α)
  | Except.ok a, Except.ok b =>
      if h : a = b then isTrue (by rw [h])
      else isFalse (by intro hh; cases hh; exact h rfl)
  | Except.ok _, Except.error _ => isFalse (by intro hh; cases hh)
  | Except.error _, Except.ok _ => isFalse (by intro hh; cases hh)
  | Except.error e, Except.error f =>
      if h : e = f then isTrue (by rw [h])
      else isFalse (by intro hh; cases hh; exact h rfl)

/-- Python exceptions raised by the embedded code paths. -/
inductive PyError where
  | keyError
  | indexError
  | valueError (msg : String)
  | typeError (msg : String)
  | attributeError (msg : String)
  | fileNotFoundError
  deriving DecidableEq

/-- A network / station / location / channel quadruple.  Used both for the
wire-level source identifier of a batch (`trace.id.split('.')` in
`on_data`, where the network slot holds the placeholder "XX" and the
station slot holds the recorder serial) and for the canonical destination
identifier (`channel.nslc`). -/
structure NSLC where
  network : String
  station : String
  location : String
  channel : String
  deriving DecidableEq

/-- A half-open time segment `[fst, snd)` on which samples are present. -/
abbrev Seg := Nat × Nat

/-- A sample batch (an obspy trace): the identity quadruple carried in
`trace.stats` plus the time segments holding data.  A freshly received
batch has exactly one segment; merged traces may have several segments,
which models an obspy masked array (data with internal gaps). -/
structure Trace where
  stats : NSLC
  segs : List Seg
  deriving DecidableEq

/-- Lookup in a Python dict represented as an insertion-ordered
association list: the first binding of the key wins (there is at most
one, because `dictSet` replaces in place). -/
def dictLookup {κ α : Type} [DecidableEq κ] : List (κ × α) → κ → Option α
  | [], _ => none
  | (k, v) :: rest, key => if k = key then some v else dictLookup rest key

/-- Python dict assignment `d[k] = v`: replace the binding in place if the
key is present, otherwise append it, preserving insertion order. -/
def dictSet {κ α : Type} [DecidableEq κ] : List (κ × α) → κ → α → List (κ × α)
  | [], key, v => [(key, v)]
  | (k, w) :: rest, key, v =>
      if k = key then (key, v) :: rest else (k, w) :: dictSet rest key v

/-- Python `k in d`. -/
def dictContains {κ α : Type} [DecidableEq κ] (d : List (κ × α)) (k : κ) : Bool :=
  (dictLookup d k).isSome

/-- Python `del d[k]`: remove the (unique) binding of the key. -/
def dictDel {κ α : Type} [DecidableEq κ] : List (κ × α) → κ → List (κ × α)
  | [], _ => []
  | (k, w) :: rest, key =>
      if k = key then rest else (k, w) :: dictDel rest key

/-! ## Ingest buffer (`TransMetaClient.on_data` / the drain step of `save_data`)

`client.py` keeps the incoming batches in `self.stream`, an obspy
`Stream` used as an append-ordered list.  `on_data` appends under
`self.stream_lock`; `save_data` drains under the same lock by copying
the stream and replacing it with a fresh empty one.  The claims about
the buffer quantify over sequences of these two operations executed
without unsynchronized interleaving, so the embedding is a fold of the
two atomic operations over an operation list. -/

/-- One atomic operation on the ingest buffer. -/
inductive BufOp (α : Type) where
  | append (b : α)
  | drain
  deriving DecidableEq

/-- Run a sequence of buffer operations starting from a given live
collection.  Returns the list of drain results (in drain order) and the
final live collection.  `append b` is `self.stream.append(trace)`;
`drain` is `export_stream = self.stream.copy(); self.stream = obspy.Stream()`. -/
def runOps {α : Type} : List (BufOp α) → List α → List (List α) × List α
  | [], buf => ([], buf)
  | BufOp.append b :: rest, buf => runOps rest (buf ++ [b])
  | BufOp.drain :: rest, buf =>
      let r := runOps rest []
      (buf :: r.1, r.2)

/-- The batches appended by a sequence of operations, in order. -/
def appendsOf {α : Type} : List (BufOp α) → List α
  | [] => []
  | BufOp.append b :: rest => b :: appendsOf rest
  | BufOp.drain :: rest => appendsOf rest

/-- Multiset union of a list of lists of batches. -/
def msum {α : Type} : List (List α) → Multiset α
  | [] => 0
  | l :: rest => (l : Multiset α) + msum rest

/-- Multiset union of all drain results of an operation sequence run
from the empty buffer. -/
def sumDrains {α : Type} (ops : List (BufOp α)) : Multiset α :=
  msum (runOps ops []).1

/-- The live collection left after running an operation sequence from
the empty buffer. -/
def finalBuf {α : Type} (ops : List (BufOp α)) : List α :=
  (runOps ops []).2

/-! ## Remapping receiver (`TransMetaClient.on_data`) -/

/-- The `on_data` callback, `client.py` lines 85-98.  The incoming
trace's identifier quadruple (`tuple(trace.id.split('.'))`) is looked up
in `self.recorder_map`; a plain Python dict subscript raises `KeyError`
when the key is absent.  On a hit the four `trace.stats` identity fields
are rewritten to the mapped destination quadruple and the trace is
appended to `self.stream` under the stream lock.  (The surrounding
`logger.debug` calls carry no data flow and are omitted.) -/
def on_data (recorder_map : List (NSLC × NSLC)) (stream : List Trace)
    (trace : Trace) : Except PyError (List Trace) :=
  match dictLookup recorder_map trace.stats with
  | none => Except.error PyError.keyError
  | some cur_nslc => Except.ok (stream ++ [{ trace with stats := cur_nslc }])

/-! ## Mapping table builder (`TransMetaClient.get_recorder_mappings`)

The inventory is external to the repository (`mss_dataserver.geometry`);
it is embedded through the interface the builder consumes: a list of
stations, each with channels, each channel exposing its canonical
quadruple `nslc` and the stream time-boxes returned by
`get_stream(start_time = now)`.  A time-box exposes `item.serial` and
`item.name` (a "location:channel" string).  The query time is fixed, so
`get_stream` is modelled as the list of time-boxes active at that
instant. -/

/-- A station NSL triple as requested in the configuration.  The
configuration is parsed with `json.loads`, so each triple is a Python
list. -/
structure NSL where
  network : String
  name : String
  location : String
  deriving DecidableEq

/-- One stream time-box as returned by `Channel.get_stream`, collapsing
the `item` indirection: `serial` is `item.serial` and `itemName` is
`item.name`. -/
structure RecorderItem where
  serial : String
  itemName : String
  deriving DecidableEq

/-- A channel of the inventory: its canonical quadruple and the stream
time-boxes active at the query time. -/
structure Channel where
  nslc : NSLC
  streams : List RecorderItem
  deriving DecidableEq

/-- A station of the inventory. -/
structure Station where
  network : String
  name : String
  location : String
  channels : List Channel
  deriving DecidableEq

/-- Python single-character split semantics, shared by `str.split(sep)`
with a one-character separator and `re.split` with a one-character
class: the result always has one more part than there are matching
characters, and empty parts are kept. -/
def pySplitBy (p : Char → Bool) : List Char → List (List Char)
  | [] => [[]]
  | c :: rest =>
      if p c then [] :: pySplitBy p rest
      else
        match pySplitBy p rest with
        | [] => [[c]]
        | h :: t => (c :: h) :: t

/-- The inventory query `self.inventory.get_station(network, name,
location)`: all stations matching the three codes. -/
def get_station (inventory : List Station) (nsl : NSL) : List Station :=
  inventory.filter fun s =>
    decide (s.network = nsl.network) && decide (s.name = nsl.name)
      && decide (s.location = nsl.location)

/-- Python evaluates `'No station found for {0:s}. Check the input
file.'.format(cur_nsl)` with `cur_nsl` a list (the station triples come
from `json.loads`).  The format spec `s` is rejected by
`list.__format__`, so the `format` call raises `TypeError` before the
intended `ValueError` can be constructed. -/
def formatUnknownStation (_cur_nsl : NSL) : Except PyError String :=
  Except.error (PyError.typeError "unsupported format string passed to list.__format__")

/-- Resolution of the requested station triples, `client.py` lines
178-191.  `none` stands for `station_nsl is None`, in which case every
station of the inventory is used.  Otherwise each triple is looked up:
more than one match raises the 'more than one stations' `ValueError`,
zero matches attempts to raise the 'No station found' `ValueError`
(whose message formatting itself raises, see `formatUnknownStation`). -/
def resolveStations (inventory : List Station) :
    Option (List NSL) → Except PyError (List Station)
  | none => Except.ok inventory
  | some nsls => go nsls
where
  go : List NSL → Except PyError (List Station)
    | [] => Except.ok []
    | cur_nsl :: rest =>
        let cur_station := get_station inventory cur_nsl
        if cur_station.length > 1 then
          Except.error (PyError.valueError
            "There are more than one stations. This is not yet supported.")
        else
          match cur_station with
          | [] =>
              match formatUnknownStation cur_nsl with
              | Except.error e => Except.error e
              | Except.ok msg => Except.error (PyError.valueError msg)
          | st :: _ =>
              match go rest with
              | Except.error e => Except.error e
              | Except.ok sl => Except.ok (st :: sl)

/-- Processing of one channel, `client.py` lines 194-203:
`stream_tb[0]` raises `IndexError` when the channel has no active stream
time-box; `item.name.split(':')[1]` raises `IndexError` when the name
has no colon; otherwise the key `('XX', serial, loc, chan)` is bound to
the channel's canonical quadruple. -/
def processChannel (recorder_map : List (NSLC × NSLC)) (cur_channel : Channel) :
    Except PyError (List (NSLC × NSLC)) :=
  match cur_channel.streams with
  | [] => Except.error PyError.indexError
  | tb :: _ =>
      match pySplitBy (fun c => decide (c = ':')) tb.itemName.toList with
      | p0 :: p1 :: _ =>
          Except.ok (dictSet recorder_map
            ⟨"XX", tb.serial, String.mk p0, String.mk p1⟩ cur_channel.nslc)
      | _ => Except.error PyError.indexError

/-- Fold of `processChannel` over the channels of one station. -/
def processChannels (recorder_map : List (NSLC × NSLC)) :
    List Channel → Except PyError (List (NSLC × NSLC))
  | [] => Except.ok recorder_map
  | ch :: rest =>
      match processChannel recorder_map ch with
      | Except.error e => Except.error e
      | Except.ok m => processChannels m rest

/-- Fold of `processChannels` over the resolved station list. -/
def processStationList (recorder_map : List (NSLC × NSLC)) :
    List Station → Except PyError (List (NSLC × NSLC))
  | [] => Except.ok recorder_map
  | st :: rest =>
      match processChannels recorder_map st.channels with
      | Except.error e => Except.error e
      | Except.ok m => processStationList m rest

/-- The mapping-table builder `get_recorder_mappings`, `client.py` lines
162-206: resolve the requested stations, then bind every channel's
derived source key to its canonical quadruple.  Any raise aborts the
build; the dict is only returned on full success. -/
def get_recorder_mappings (inventory : List Station)
    (station_nsl : Option (List NSL)) : Except PyError (List (NSLC × NSLC)) :=
  match resolveStations inventory station_nsl with
  | Except.error e => Except.error e
  | Except.ok station_list => processStationList [] station_list

/-! ## Write cycle (`TransMetaClient.save_data`)

`save_data` drains the buffer, calls `export_stream.merge()` followed by
`export_stream.split()`, derives an output path from the overall time
span and hands the stream to the miniseed writer.  `merge` and `split`
belong to the external time-series library (obspy) and are embedded
from its documented contract: `merge` (default method 0) combines, in
place, all traces sharing an identifier into a single trace, masking
any internal gaps; `split` returns a NEW stream in which every masked
trace is decomposed into its contiguous unmasked pieces, leaving the
receiver untouched.  Line 121 of `client.py` discards `split`'s return
value, so the stream that reaches the writer is exactly the output of
`merge`. -/

/-- Insert a segment into a list of segments sorted by start time. -/
def insertSorted (s : Seg) : List Seg → List Seg
  | [] => [s]
  | t :: ts => if s.1 ≤ t.1 then s :: t :: ts else t :: insertSorted s ts

/-- Sort segments by start time (insertion sort). -/
def sortSegs (l : List Seg) : List Seg :=
  l.foldr insertSorted []

/-- Coalesce a start-sorted segment list: the current run absorbs every
following segment that starts at or before the run's end (adjacent or
overlapping); a strictly later start closes the run and opens a gap. -/
def coalesce (cur : Seg) : List Seg → List Seg
  | [] => [cur]
  | b :: rest =>
      if b.1 ≤ cur.2 then coalesce (cur.1, max cur.2 b.2) rest
      else cur :: coalesce b rest

/-- Normalise a list of segments into maximal disjoint runs. -/
def coalesceAll (l : List Seg) : List Seg :=
  match sortSegs l with
  | [] => []
  | s :: rest => coalesce s rest

/-- The distinct identifiers of a stream, in order of first occurrence. -/
def idsOf (st : List Trace) : List NSLC :=
  st.foldl (fun acc t => if t.stats ∈ acc then acc else acc ++ [t.stats]) []

/-- All segments a stream holds for one identifier, in stream order. -/
def segsFor (st : List Trace) (id : NSLC) : List Seg :=
  (st.filter fun t => decide (t.stats = id)).flatMap Trace.segs

/-- The in-place `Stream.merge()` of the external library (method 0):
one trace per identifier, holding the normalised union of that
identifier's segments; a trace with more than one segment models a
masked array (data with internal gaps). -/
def mergeStream (st : List Trace) : List Trace :=
  (idsOf st).map fun id => ⟨id, coalesceAll (segsFor st id)⟩

/-- The `Stream.split()` of the external library: every trace is
decomposed into one trace per contiguous segment.  `client.py` line 121
computes this and discards it. -/
def splitStream (st : List Trace) : List Trace :=
  st.flatMap fun t => t.segs.map fun s => ⟨t.stats, [s]⟩

/-- Start time of a trace (minimum over its segments). -/
def traceStart (t : Trace) : Nat :=
  match t.segs with
  | [] => 0
  | s :: rest => (rest.map Prod.fst).foldl min s.1

/-- End time of a trace (maximum over its segments). -/
def traceEnd (t : Trace) : Nat :=
  match t.segs with
  | [] => 0
  | s :: rest => (rest.map Prod.snd).foldl max s.2

/-- The derived output path, `client.py` lines 125-129: the configured
data directory joined with a name embedding the overall start and end of
the merged stream.  (The ISO-8601 rendering of the external
`UTCDateTime` is abstracted to the decimal rendering of the modelled
timestamp; no claim depends on the digits themselves.)  The empty-stream
case is never reached by `save_data`, which raises before deriving a
path. -/
def cur_filepath (data_dir : String) (export_stream : List Trace) : String :=
  match export_stream with
  | [] => data_dir
  | t :: rest =>
      let cur_start := (rest.map traceStart).foldl min (traceStart t)
      let cur_end := (rest.map traceEnd).foldl max (traceEnd t)
      data_dir ++ "/msstm_mseed_export_" ++ toString cur_start ++ "_"
        ++ toString cur_end ++ ".msd"

/-- The two miniseed-writer failures `save_data` distinguishes:
`NotImplementedError` (masked/gapped data the encoder cannot serialise)
and `ValueError` (too little data for one record). -/
inductive WriteErr where
  | notImplementedError
  | valueError
  deriving DecidableEq

/-- Logging levels used by the write cycle. -/
inductive LogLevel where
  | debug
  | info
  | exception
  deriving DecidableEq

/-- The filesystem visible to the write cycle: the set of paths that
exist, as a list. -/
abbrev FS := List String

/-- Python `os.remove(path)`: delete the file, raising
`FileNotFoundError` when it does not exist. -/
def os_remove (path : String) (fs : FS) : Except PyError FS :=
  if path ∈ fs then Except.ok (fs.erase path) else Except.error PyError.fileNotFoundError

/-- Everything `save_data` leaves behind: its result (normal return or
propagated exception), the filesystem, the new live collection, and the
log records it emitted (debug records carrying no decision are
omitted). -/
structure SaveOutcome where
  result : Except PyError Unit
  fs : FS
  newStream : List Trace
  logs : List (LogLevel × String)
  deriving DecidableEq

/-- The write cycle `save_data`, `client.py` lines 112-140.  The writer
itself is external; it is passed in as `codec`, mapping the stream, the
target path and the filesystem to an outcome and the filesystem it
leaves behind (the call site fixes `format="MSEED"`, `reclen=512`,
`encoding='STEIM2'`, `flush=True`).  Under the stream lock the live
collection is copied and replaced by an empty one; the copy is merged
(the result of `split()` is discarded, line 121); with no batches the
`min()` over start times raises an uncaught `ValueError`; otherwise the
writer runs, `NotImplementedError` is logged and absorbed, and
`ValueError` is logged at info level followed by `os.remove` of the
derived path. -/
def save_data (codec : List Trace → String → FS → Except WriteErr Unit × FS)
    (data_dir : String) (stream : List Trace) (fs : FS) : SaveOutcome :=
  let baseLogs := [(LogLevel.info, "Saving the data.")]
  let export_stream := mergeStream stream
  let _discarded_split := splitStream export_stream
  match export_stream with
  | [] =>
      ⟨Except.error (PyError.valueError "min() arg is an empty sequence"),
        fs, [], baseLogs⟩
  | t :: rest =>
      let path := cur_filepath data_dir (t :: rest)
      match codec (t :: rest) path fs with
      | (Except.ok _, fs1) => ⟨Except.ok (), fs1, [], baseLogs⟩
      | (Except.error WriteErr.notImplementedError, fs1) =>
          ⟨Except.ok (), fs1, [],
            baseLogs ++ [(LogLevel.exception,
              "Error when writing the miniseed file with masked data. Clearing the stream and #going on.")]⟩
      | (Except.error WriteErr.valueError, fs1) =>
          let logs := baseLogs
            ++ [(LogLevel.info, "Not enough data to write a miniseed record.")]
          match os_remove path fs1 with
          | Except.ok fs2 => ⟨Except.ok (), fs2, [], logs⟩
          | Except.error e => ⟨Except.error e, fs1, [], logs⟩

/-! ## Periodic flush scheduler (`task_timer`, `util.py` lines 151-181)

Wall-clock instants are modelled as natural numbers (the claims speak in
whole seconds; the float subseconds of `UTCDateTime().timestamp` do not
change the boundary arithmetic). -/

/-- The sleep computed by `task_timer`:
`interval - (now.timestamp % interval)`. -/
def delay_to_next_interval (interval now : Nat) : Nat :=
  interval - now % interval

/-- The instant the timer wakes when the clock reads `now`: the current
time plus the computed sleep. -/
def nextBoundary (interval now : Nat) : Nat :=
  now + delay_to_next_interval interval now

/-- The tick instants of `task_timer` started at `t0`, given the
duration of each callback invocation: the first tick is the boundary
computed from `t0`; after a callback of duration `d` run at tick `T`,
the next boundary is computed from the then-current clock `T + d`.  A
list of `n` durations yields `n + 1` tick instants. -/
def tickSeq (interval t0 : Nat) : List Nat → List Nat
  | [] => [nextBoundary interval t0]
  | d :: ds =>
      nextBoundary interval t0
        :: tickSeq interval (nextBoundary interval t0 + d) ds

/-- The instant `b` is the least multiple of `interval` strictly after
`t`. -/
def leastMultAbove (interval t b : Nat) : Prop :=
  interval ∣ b ∧ t < b ∧ ∀ m, interval ∣ m → t < m → b ≤ m

/-! ## Version comparison (`util.py` lines 203-303)

Version strings are modelled as lists of characters; the helpers mirror
`str.split`, `str.isdigit`, `int` on digit strings and
`re.split('[A-Za-z]', x)`. -/

/-- Python `x.isdigit()`: non-empty and all digits. -/
def isdigitL (l : List Char) : Bool :=
  decide (l ≠ []) && l.all Char.isDigit

/-- Python `int(x)` on a string of digits. -/
def digitsToNat (l : List Char) : Nat :=
  l.foldl (fun a c => a * 10 + (c.toNat - 48)) 0

/-- `Version.string_to_tuple`, `util.py` lines 278-303: split on dots;
a fully numeric part becomes its integer; otherwise the part is split on
letters, the first numeric piece (if any) is taken, else 0. -/
def string_to_tuple (vs : List Char) : List Nat :=
  (pySplitBy (fun c => decide (c = '.')) vs).map fun x =>
    if isdigitL x then digitsToNat x
    else
      let tmp := (pySplitBy Char.isAlpha x).filter isdigitL
      match tmp with
      | [] => 0
      | t0 :: _ => digitsToNat t0

/-- `Version.__eq__`: walk `self.version` comparing against
`c.version[k]`; indexing past the end of `c.version` raises
`IndexError`; exhausting `self.version` returns `True` even if
`c.version` is longer. -/
def versionEq : List Nat → List Nat → Except PyError Bool
  | [], _ => Except.ok true
  | _ :: _, [] => Except.error PyError.indexError
  | x :: xs, y :: ys =>
      if x ≠ y then Except.ok false else versionEq xs ys

/-- `Version.__gt__`: first strictly greater component wins; a smaller
component loses; exhausting `self.version` returns `False`. -/
def versionGt : List Nat → List Nat → Except PyError Bool
  | [], _ => Except.ok false
  | _ :: _, [] => Except.error PyError.indexError
  | x :: xs, y :: ys =>
      if x > y then Except.ok true
      else if x ≠ y then Except.ok false
      else versionGt xs ys

/-- `Version.__lt__`: mirror image of `__gt__`. -/
def versionLt : List Nat → List Nat → Except PyError Bool
  | [], _ => Except.ok false
  | _ :: _, [] => Except.error PyError.indexError
  | x :: xs, y :: ys =>
      if x < y then Except.ok true
      else if x ≠ y then Except.ok false
      else versionLt xs ys

/-- `Version.__ge__`: `self.__eq__(c) or self.__gt__(c)` with Python
short-circuiting. -/
def versionGe (a b : List Nat) : Except PyError Bool :=
  match versionEq a b with
  | Except.error e => Except.error e
  | Except.ok true => Except.ok true
  | Except.ok false => versionGt a b

/-- `Version.__le__`: `self.__eq__(c) or self.__lt__(c)`. -/
def versionLe (a b : List Nat) : Except PyError Bool :=
  match versionEq a b with
  | Except.error e => Except.error e
  | Except.ok true => Except.ok true
  | Except.ok false => versionLt a b

/-- Standard strict lexicographic order on integer sequences, the
comparison the specification says the custom operators amount to. -/
def lexLt : List Nat → List Nat → Bool
  | [], [] => false
  | [], _ :: _ => true
  | _ :: _, [] => false
  | x :: xs, y :: ys =>
      decide (x < y) || (decide (x = y) && lexLt xs ys)

/-! ## AttribDict (`util.py` lines 183-200)

A dictionary with attribute-style access; the three dunder methods are
embedded over the Python-dict model `List (String × α)`.  `AttribDict`
subclasses `dict`, and Python's attribute protocol matters here: a read
`d.name` consults the attributes of the type (the `dict` and `object`
methods such as `keys`, `update`, `copy`) before ever calling the
overridden `__getattr__`, while an assignment `d.name = v` and a
deletion `del d.name` always go through the overridden `__setattr__`
and `__delattr__`.  The instance `__dict__` stays empty, because the
overridden `__setattr__` stores into the mapping itself. -/

/-- `AttribDict.__getattr__` (`util.py` lines 187-191): the item when
the name is a key, otherwise `AttributeError`.  Python invokes this
dunder only after normal attribute lookup has failed, so on its own it
is not the meaning of `d.name`; see `pyGetAttribute` for the full read
protocol. -/
def attrGet {α : Type} (d : List (String × α)) (name : String) : Except PyError α :=
  match dictLookup d name with
  | some v => Except.ok v
  | none => Except.error (PyError.attributeError ("No such attribute: " ++ name))

/-- What an attribute read on an `AttribDict` can produce: an item
stored in the mapping (delivered by `__getattr__`), or an attribute of
the `dict` type itself (a bound method), which shadows the mapping. -/
inductive AttrRead (α : Type) where
  | item (v : α)
  | boundMethod (name : String)
  deriving DecidableEq

/-- Attribute names defined on the `dict` type itself.  Every name
listed is a genuine `dict` method; the real type carries further names
(the `object` dunders among them), which is why the functions below
take the type-attribute list as a parameter instead of fixing it. -/
def dictTypeAttrs : List String :=
  ["keys", "values", "items", "get", "update", "pop", "popitem",
   "clear", "copy", "setdefault", "fromkeys"]

/-- The full Python attribute read `d.name` on an `AttribDict` whose
type attributes are `typeAttrs`: a name found on the type resolves to
the bound method (the instance `__dict__` is always empty, and none of
the `dict` methods are data descriptors overridden per instance); only
when type lookup fails is the overridden `__getattr__` invoked. -/
def pyGetAttribute {α : Type} (typeAttrs : List String)
    (d : List (String × α)) (name : String) : Except PyError (AttrRead α) :=
  if name ∈ typeAttrs then Except.ok (AttrRead.boundMethod name)
  else
    match attrGet d name with
    | Except.ok v => Except.ok (AttrRead.item v)
    | Except.error e => Except.error e

/-- `AttribDict.__setattr__`: plain item assignment. -/
def attrSet {α : Type} (d : List (String × α)) (name : String) (v : α) :
    List (String × α) :=
  dictSet d name v

/-- `AttribDict.__delattr__`: delete the item when the name is a key,
otherwise `AttributeError`. -/
def attrDel {α : Type} (d : List (String × α)) (name : String) :
    Except PyError (List (String × α)) :=
  if dictContains d name then Except.ok (dictDel d name)
  else Except.error (PyError.attributeError ("No such attribute: " ++ name))

/-- Dictionary-style read `d[name]`, raising `KeyError` when absent. -/
def itemGet {α : Type} (d : List (String × α)) (name : String) : Except PyError α :=
  match dictLookup d name with
  | some v => Except.ok v
  | none => Except.error PyError.keyError

/-! ## Concrete instances used by the counterexamples and witnesses -/

/-- A short operation sequence on the ingest buffer that ends drained. -/
def c2ops : List (BufOp Nat) :=
  [BufOp.append 1, BufOp.append 2, BufOp.drain, BufOp.append 3, BufOp.drain]

/-- A batch whose source quadruple is mapped by no recorder map entry. -/
def c3trace : Trace := ⟨⟨"XX", "SN999", "00", "HHZ"⟩, [(0, 10)]⟩

/-- A channel with no active stream time-box. -/
def ch4 : Channel := ⟨⟨"NL", "STA1", "00", "HHZ"⟩, []⟩

/-- A station whose only channel has no active stream time-box. -/
def st4 : Station := ⟨"NL", "STA1", "00", [ch4]⟩

/-- An inventory containing only `st4`. -/
def inv4 : List Station := [st4]

/-- An inventory in which the triple ("NL", "NOPE", "00") has no match. -/
def inv5 : List Station := [⟨"NL", "STA1", "00", []⟩]

/-- An inventory in which the triple ("NL", "STA1", "00") has two
matches. -/
def inv5b : List Station :=
  [⟨"NL", "STA1", "00", []⟩, ⟨"NL", "STA1", "00", []⟩]

/-- A destination identifier. -/
def idA : NSLC := ⟨"NL", "STA1", "00", "HHZ"⟩

/-- A second, distinct destination identifier. -/
def idB : NSLC := ⟨"NL", "STA2", "00", "HHZ"⟩

/-- A batch for `idA` on `[0, 10)`. -/
def trA1 : Trace := ⟨idA, [(0, 10)]⟩

/-- A batch for `idA` on `[20, 30)`: separated from `trA1` by a gap. -/
def trA2gap : Trace := ⟨idA, [(20, 30)]⟩

/-- A batch for `idA` on `[10, 30)`: adjacent to `trA1` (end of one
equals start of the next). -/
def trA2adj : Trace := ⟨idA, [(10, 30)]⟩

/-- A batch for `idB` on `[10, 30)`. -/
def trB : Trace := ⟨idB, [(10, 30)]⟩

/-- A writer that reports the insufficient-data `ValueError`, leaving
the partial file artifact at the target path. -/
def c8codec : List Trace → String → FS → Except WriteErr Unit × FS :=
  fun _ path fs => (Except.error WriteErr.valueError, path :: fs)

/-- The version string "1.10.0rc1" as characters. -/
def c9s : List Char := ['1', '.', '1', '0', '.', '0', 'r', 'c', '1']

/-- The version string "1.9.2" as characters. -/
def c9t : List Char := ['1', '.', '9', '.', '2']

/-! ## Helper lemmas -/

theorem runOps_conservation {α : Type} (ops : List (BufOp α)) :
    ∀ buf : List α,
      msum (runOps ops buf).1 + ((runOps ops buf).2 : Multiset α)
        = (buf : Multiset α) + (appendsOf ops : Multiset α) := by
  induction ops with
  | nil => intro buf; simp [runOps, appendsOf, msum]
  | cons op rest ih =>
      intro buf
      cases op with
      | append b =>
          show msum (runOps rest (buf ++ [b])).1
                + ((runOps rest (buf ++ [b])).2 : Multiset α)
              = (buf : Multiset α) + ((b :: appendsOf rest : List α) : Multiset α)
          rw [ih (buf ++ [b])]
          have h1 : ((buf ++ [b] : List α) : Multiset α)
              = (buf : Multiset α) + (([b] : List α) : Multiset α) :=
            (Multiset.coe_add buf [b]).symm
          rw [h1]
          have h2 : ((b :: appendsOf rest : List α) : Multiset α)
              = (([b] : List α) : Multiset α) + (appendsOf rest : Multiset α) :=
            (Multiset.coe_add [b] (appendsOf rest)).symm
          rw [h2, add_assoc]
      | drain =>
          show (buf : Multiset α) + msum (runOps rest []).1
                + ((runOps rest []).2 : Multiset α)
              = (buf : Multiset α) + (appendsOf rest : Multiset α)
          rw [add_assoc, ih []]
          simp

/-! ## Claim C1 -/

/-- Counterexample to C1: on an empty drained collection `save_data`
does not return without error — the `min()` over the start times of the
empty merged stream raises an uncaught `ValueError` (line 125 of
`client.py` is outside the try block). -/
theorem c1_counterexample :
    (save_data (fun _ _ fs => (Except.ok (), fs)) "d" [] []).result
      = Except.error (PyError.valueError "min() arg is an empty sequence") := rfl

/-- Claim C1 (amended): for every drained collection that is empty, the
Write Cycle (`save_data`) performs no filesystem write, but instead of
returning without error it raises a `ValueError` (from `min()` over the
empty start-time sequence), which propagates to the caller. -/
theorem c1_save_data_empty_amended
    (codec : List Trace → String → FS → Except WriteErr Unit × FS)
    (data_dir : String) (fs : FS) :
    save_data codec data_dir [] fs =
      ⟨Except.error (PyError.valueError "min() arg is an empty sequence"),
        fs, [], [(LogLevel.info, "Saving the data.")]⟩ := rfl

/-! ## Claim C2 -/

/-- Claim C2: over any sequence of `on_data` appends and `save_data`
drains executed without unsynchronized interleaving, batches are
conserved: the multiset union of the drain results plus the remaining
live collection equals the multiset of appended batches; in particular
the union of the drain results never exceeds the appends (no batch is
seen by two drains), and once the final live collection is empty the
union of all drain results equals the multiset of all appended
batches exactly. -/
theorem c2_ingest_buffer_conservation {α : Type} (ops : List (BufOp α)) :
    sumDrains ops + (finalBuf ops : Multiset α) = (appendsOf ops : Multiset α)
    ∧ sumDrains ops ≤ (appendsOf ops : Multiset α)
    ∧ (finalBuf ops = [] → sumDrains ops = (appendsOf ops : Multiset α)) := by
  have h1 : sumDrains ops + (finalBuf ops : Multiset α)
      = (appendsOf ops : Multiset α) := by
    have h := runOps_conservation ops []
    simpa [sumDrains, finalBuf] using h
  refine ⟨h1, ?_, ?_⟩
  · calc sumDrains ops ≤ sumDrains ops + (finalBuf ops : Multiset α) := le_self_add
      _ = (appendsOf ops : Multiset α) := h1
  · intro hfin
    rw [hfin] at h1
    simpa using h1

/-- Witness for C2: a concrete operation sequence ending in a drain,
whose drain results add up to exactly the appended batches. -/
theorem c2_witness :
    finalBuf c2ops = [] ∧ sumDrains c2ops = (appendsOf c2ops : Multiset Nat) :=
  ⟨rfl, (c2_ingest_buffer_conservation c2ops).2.2 rfl⟩

/-! ## Claim C3 -/

/-- Counterexample to C3: a batch whose source quadruple is absent from
the recorder map does not produce a logged `UnmappedStreamError` with a
normal return — the bare dict subscript in `on_data` raises `KeyError`,
which propagates out of the callback, and the batch is not appended. -/
theorem c3_counterexample :
    on_data [] [] c3trace = Except.error PyError.keyError := rfl

/-- Claim C3 (amended): for every incoming batch whose source quadruple
is absent from the mapping table, `on_data` raises a `KeyError` that
propagates out of the receive callback; the batch is not appended to the
ingest buffer, no `UnmappedStreamError` is signalled and nothing is
logged for it; whether the transport continues with later batches is
outside this repository. -/
theorem c3_on_data_unmapped_amended (recorder_map : List (NSLC × NSLC))
    (stream : List Trace) (trace : Trace)
    (h : dictLookup recorder_map trace.stats = none) :
    on_data recorder_map stream trace = Except.error PyError.keyError := by
  simp [on_data, h]

/-- Witness for C3 (amended) on an empty recorder map and a non-empty
buffer. -/
theorem c3_witness :
    dictLookup ([] : List (NSLC × NSLC)) c3trace.stats = none
    ∧ on_data [] [trA1] c3trace = Except.error PyError.keyError :=
  ⟨rfl, c3_on_data_unmapped_amended [] [trA1] c3trace rfl⟩

/-! ## Claim C4 -/

/-- Counterexample to C4: a channel with no active stream time-box is
not skipped — `stream_tb[0]` raises `IndexError` and mapping-table
construction aborts. -/
theorem c4_counterexample :
    get_recorder_mappings inv4 none = Except.error PyError.indexError := rfl

theorem processChannels_ok_no_empty :
    ∀ (chs : List Channel) (m m' : List (NSLC × NSLC)),
      processChannels m chs = Except.ok m' →
      ∀ ch ∈ chs, ch.streams ≠ [] := by
  intro chs
  induction chs with
  | nil => intro m m' _ ch hch; cases hch
  | cons c rest ih =>
      intro m m' hok ch hch
      cases hc : processChannel m c with
      | error e => rw [processChannels, hc] at hok; cases hok
      | ok m1 =>
          rw [processChannels, hc] at hok
          rcases List.mem_cons.mp hch with hEq | hMem
          · subst hEq
            intro hnil
            rw [processChannel, hnil] at hc
            cases hc
          · exact ih m1 m' hok ch hMem

theorem processStationList_ok_no_empty :
    ∀ (sl : List Station) (m m' : List (NSLC × NSLC)),
      processStationList m sl = Except.ok m' →
      ∀ st ∈ sl, ∀ ch ∈ st.channels, ch.streams ≠ [] := by
  intro sl
  induction sl with
  | nil => intro m m' _ st hst; cases hst
  | cons s rest ih =>
      intro m m' hok st hst ch hch
      cases hc : processChannels m s.channels with
      | error e => rw [processStationList, hc] at hok; cases hok
      | ok m1 =>
          rw [processStationList, hc] at hok
          rcases List.mem_cons.mp hst with hEq | hMem
          · subst hEq
            exact processChannels_ok_no_empty _ m m1 hc ch hch
          · exact ih m1 m' hok st hMem ch hch

/-- Claim C4 (amended): during mapping-table construction, a channel
with no active stream time-box among the resolved stations is not
skipped — `get_recorder_mappings` aborts with an error instead of
continuing with the remaining channels. -/
theorem c4_no_stream_amended (inventory : List Station)
    (req : Option (List NSL)) (sl : List Station) (st : Station) (ch : Channel)
    (h1 : resolveStations inventory req = Except.ok sl)
    (h2 : st ∈ sl) (h3 : ch ∈ st.channels) (h4 : ch.streams = []) :
    ∃ e, get_recorder_mappings inventory req = Except.error e := by
  cases hres : processStationList [] sl with
  | error e =>
      exact ⟨e, by simp [get_recorder_mappings, h1, hres]⟩
  | ok m =>
      exact absurd h4 (processStationList_ok_no_empty sl [] m hres st h2 ch h3)

/-- Witness for C4 (amended) on the one-station inventory `inv4`. -/
theorem c4_witness :
    resolveStations inv4 none = Except.ok [st4]
    ∧ ch4.streams = []
    ∧ ∃ e, get_recorder_mappings inv4 none = Except.error e :=
  ⟨rfl, rfl,
    c4_no_stream_amended inv4 none [st4] st4 ch4 rfl (by decide) (by decide) rfl⟩

/-! ## Claim C5 -/

/-- Claim C5, evaluated at the failing input: requesting a station with
zero inventory matches aborts the build, but with a `TypeError` rather
than the intended `ValueError`, because `'... {0:s} ...'.format(cur_nsl)`
applies the string format spec to a list; the more-than-one-match case
raises the intended `ValueError`, and in both cases no table is
returned, so it is never partially populated. -/
theorem c5_unknown_station_typeerror :
    get_recorder_mappings inv5 (some [⟨"NL", "NOPE", "00"⟩])
      = Except.error
          (PyError.typeError "unsupported format string passed to list.__format__")
    ∧ get_recorder_mappings inv5b (some [⟨"NL", "STA1", "00"⟩])
      = Except.error
          (PyError.valueError
            "There are more than one stations. This is not yet supported.") :=
  ⟨rfl, rfl⟩

/-! ## Claim C6 -/

/-- Claim C6, evaluated at the failing input: in the write-cycle merge
step, adjacent same-identifier batches do merge into one contiguous run
and batches for different identifiers never merge, but same-identifier
batches separated by a gap do NOT remain separate runs — they become a
single masked trace with two data segments, because line 121 of
`client.py` discards the stream returned by `split()` (the fourth
conjunct shows the two separate runs that the discarded result
contains). -/
theorem c6_merge_split_discarded :
    mergeStream [trA1, trA2adj] = [⟨idA, [(0, 30)]⟩]
    ∧ mergeStream [trA1, trB] = [trA1, trB]
    ∧ mergeStream [trA1, trA2gap] = [⟨idA, [(0, 10), (20, 30)]⟩]
    ∧ splitStream (mergeStream [trA1, trA2gap])
        = [⟨idA, [(0, 10)]⟩, ⟨idA, [(20, 30)]⟩] :=
  ⟨rfl, rfl, rfl, rfl⟩

/-! ## Claim C7 -/

theorem nextBoundary_eq (interval t : Nat) (h : 0 < interval) :
    nextBoundary interval t = interval * (t / interval + 1) := by
  have hd := Nat.div_add_mod t interval
  have hm : t % interval < interval := Nat.mod_lt t h
  have hmul : interval * (t / interval + 1) = interval * (t / interval) + interval := by
    ring
  rw [nextBoundary, delay_to_next_interval, hmul]
  omega

theorem nextBoundary_least (interval t : Nat) (h : 0 < interval) :
    leastMultAbove interval t (nextBoundary interval t) := by
  have hm : t % interval < interval := Nat.mod_lt t h
  refine ⟨⟨t / interval + 1, nextBoundary_eq interval t h⟩, ?_, ?_⟩
  · rw [nextBoundary, delay_to_next_interval]
    omega
  · intro m hdvd hlt
    obtain ⟨q, rfl⟩ := hdvd
    rw [nextBoundary_eq interval t h]
    apply Nat.mul_le_mul_left
    by_contra hq
    push_neg at hq
    have hqle : q ≤ t / interval := by omega
    have : interval * q ≤ interval * (t / interval) :=
      Nat.mul_le_mul_left interval hqle
    have hfloor : interval * (t / interval) ≤ t := by
      rw [mul_comm]
      exact Nat.div_mul_le_self t interval
    omega

theorem tickSeq_head (interval t0 : Nat) (ds : List Nat) :
    (tickSeq interval t0 ds).head? = some (nextBoundary interval t0) := by
  cases ds <;> rfl

theorem tickSeq_step (interval : Nat) (ds : List Nat) :
    ∀ (t0 k tk d : Nat),
      (tickSeq interval t0 ds).get? k = some tk → ds.get? k = some d →
      (tickSeq interval t0 ds).get? (k + 1)
        = some (nextBoundary interval (tk + d)) := by
  induction ds with
  | nil => intro t0 k tk d _ hB; cases hB
  | cons d0 rest ih =>
      intro t0 k tk d hA hB
      cases k with
      | zero =>
          rw [tickSeq] at hA
          have htk : nextBoundary interval t0 = tk := by
            simpa using hA
          have hd : d0 = d := by
            simpa using hB
          subst htk
          subst hd
          show (tickSeq interval (nextBoundary interval t0 + d0) rest).get? 0
              = some (nextBoundary interval (nextBoundary interval t0 + d0))
          cases rest <;> rfl
      | succ k =>
          rw [tickSeq] at hA ⊢
          exact ih (nextBoundary interval t0 + d0) k tk d hA hB

/-- Claim C7: for every positive interval and start time, the first
callback of `task_timer` runs at the least multiple of the interval
strictly after the start time; and after each callback, the next tick
is the boundary recomputed from the then-current clock (the tick time
plus the callback's duration) — again the least interval multiple
strictly after that clock reading, not the previous boundary plus the
interval. -/
theorem c7_task_timer_alignment (interval t0 : Nat) (ds : List Nat)
    (h : 0 < interval) :
    (tickSeq interval t0 ds).head? = some (nextBoundary interval t0)
    ∧ leastMultAbove interval t0 (nextBoundary interval t0)
    ∧ ∀ k tk d, (tickSeq interval t0 ds).get? k = some tk →
        ds.get? k = some d →
        (tickSeq interval t0 ds).get? (k + 1)
            = some (nextBoundary interval (tk + d))
        ∧ leastMultAbove interval (tk + d) (nextBoundary interval (tk + d)) := by
  refine ⟨tickSeq_head interval t0 ds, nextBoundary_least interval t0 h, ?_⟩
  intro k tk d hA hB
  exact ⟨tickSeq_step interval ds t0 k tk d hA hB,
    nextBoundary_least interval (tk + d) h⟩

/-- Witness for C7: with interval 60 and a start 23 seconds past the
minute (12:00:23 as seconds of day), the first tick is at 43260
(12:01:00); the recurrence and least-boundary facts are instantiated
with a 70-second overrunning callback. -/
theorem c7_witness :
    0 < 60
    ∧ (tickSeq 60 43223 [70]).head? = some 43260
    ∧ leastMultAbove 60 43223 43260
    ∧ (tickSeq 60 43223 [70]).get? 1 = some (nextBoundary 60 (43260 + 70)) := by
  have h := c7_task_timer_alignment 60 43223 [70] (by decide)
  refine ⟨by decide, h.1, h.2.1, ?_⟩
  exact (h.2.2 0 43260 70 h.1 rfl).1

/-! ## Claim C8 -/

/-- Claim C8: for every write cycle in which the writer raises the
insufficient-data `ValueError` and the partial file artifact exists at
the derived output path, `save_data` removes that artifact, logs the
condition at informational level, and returns normally (no error
propagates), so the scheduler continues. -/
theorem c8_save_data_insufficient
    (codec : List Trace → String → FS → Except WriteErr Unit × FS)
    (data_dir : String) (stream : List Trace) (fs fs1 : FS)
    (hne : mergeStream stream ≠ [])
    (hcodec : codec (mergeStream stream)
        (cur_filepath data_dir (mergeStream stream)) fs
      = (Except.error WriteErr.valueError, fs1))
    (hart : cur_filepath data_dir (mergeStream stream) ∈ fs1) :
    save_data codec data_dir stream fs =
      ⟨Except.ok (),
        fs1.erase (cur_filepath data_dir (mergeStream stream)), [],
        [(LogLevel.info, "Saving the data."),
         (LogLevel.info, "Not enough data to write a miniseed record.")]⟩ := by
  cases hms : mergeStream stream with
  | nil => exact absurd hms hne
  | cons t rest =>
      rw [hms] at hcodec hart
      simp [save_data, hms, hcodec, os_remove, hart]

/-- Witness for C8: one batch, a writer that reports insufficient data
and leaves the artifact behind; the artifact is removed again and the
cycle ends normally with the informational log. -/
theorem c8_witness :
    mergeStream [trA1] ≠ []
    ∧ c8codec (mergeStream [trA1]) (cur_filepath "d" (mergeStream [trA1])) []
        = (Except.error WriteErr.valueError,
            [cur_filepath "d" (mergeStream [trA1])])
    ∧ save_data c8codec "d" [trA1] [] =
        ⟨Except.ok (), [], [],
          [(LogLevel.info, "Saving the data."),
           (LogLevel.info, "Not enough data to write a miniseed record.")]⟩ := by
  refine ⟨by decide, rfl, ?_⟩
  have h := c8_save_data_insufficient c8codec "d" [trA1] []
    [cur_filepath "d" (mergeStream [trA1])] (by decide) rfl (by simp)
  rw [h]
  decide

/-! ## Claim C9 -/

/-- Counterexample to C9: on the version strings "1.2" and "1.2.3" the
custom `__eq__` returns `True`, although the corresponding integer
sequences `[1, 2]` and `[1, 2, 3]` are not equal under the standard
comparison; with the operands swapped, `__eq__` raises `IndexError`
rather than producing any comparison result. -/
theorem c9_counterexample :
    versionEq (string_to_tuple ['1', '.', '2'])
        (string_to_tuple ['1', '.', '2', '.', '3']) = Except.ok true
    ∧ string_to_tuple ['1', '.', '2'] ≠ string_to_tuple ['1', '.', '2', '.', '3']
    ∧ versionEq (string_to_tuple ['1', '.', '2', '.', '3'])
        (string_to_tuple ['1', '.', '2']) = Except.error PyError.indexError := by
  refine ⟨rfl, ?_, rfl⟩
  decide

theorem lexLt_irrefl : ∀ a : List Nat, lexLt a a = false := by
  intro a
  induction a with
  | nil => rfl
  | cons x xs ih => simp [lexLt, ih]

theorem lexLt_asymm : ∀ a b : List Nat, lexLt a b = true → lexLt b a = false := by
  intro a
  induction a with
  | nil =>
      intro b _
      cases b with
      | nil => rfl
      | cons y ys => rfl
  | cons x xs ih =>
      intro b hab
      cases b with
      | nil => cases hab
      | cons y ys =>
          simp only [lexLt, Bool.or_eq_true, Bool.and_eq_true,
            decide_eq_true_eq] at hab
          rcases hab with hlt | ⟨heq, hrec⟩
          · have h1 : ¬ y < x := Nat.lt_asymm hlt
            have h2 : ¬ y = x := by
              intro hh
              rw [hh] at hlt
              exact Nat.lt_irrefl x hlt
            simp [lexLt, h1, h2]
          · subst heq
            simp [lexLt, ih ys hrec]

theorem lexLt_connex : ∀ a b : List Nat, a.length = b.length → a ≠ b →
    lexLt a b = true ∨ lexLt b a = true := by
  intro a
  induction a with
  | nil =>
      intro b hlen hne
      cases b with
      | nil => exact absurd rfl hne
      | cons y ys => cases hlen
  | cons x xs ih =>
      intro b hlen hne
      cases b with
      | nil => cases hlen
      | cons y ys =>
          rcases Nat.lt_trichotomy x y with hlt | heq | hgt
          · left; simp [lexLt, hlt]
          · subst heq
            have hxs : xs ≠ ys := by
              intro hh; exact hne (by rw [hh])
            have hlen2 : xs.length = ys.length := by simpa using hlen
            rcases ih ys hlen2 hxs with h1 | h1
            · left; simp [lexLt, h1]
            · right; simp [lexLt, h1]
          · right; simp [lexLt, hgt]

theorem version_cmp_eqLen : ∀ a b : List Nat, a.length = b.length →
    versionEq a b = Except.ok (decide (a = b))
    ∧ versionGt a b = Except.ok (lexLt b a)
    ∧ versionLt a b = Except.ok (lexLt a b) := by
  intro a
  induction a with
  | nil =>
      intro b hlen
      cases b with
      | nil => refine ⟨rfl, rfl, rfl⟩
      | cons y ys => cases hlen
  | cons x xs ih =>
      intro b hlen
      cases b with
      | nil => cases hlen
      | cons y ys =>
          have hlen2 : xs.length = ys.length := by simpa using hlen
          obtain ⟨he, hg, hl⟩ := ih ys hlen2
          rcases Nat.lt_trichotomy x y with hlt | heq | hgt
          · have hne : ¬ x = y := Nat.ne_of_lt hlt
            have hne2 : ¬ y = x := Nat.ne_of_gt hlt
            have hnlt : ¬ y < x := Nat.lt_asymm hlt
            refine ⟨?_, ?_, ?_⟩
            · simp [versionEq, hne]
            · simp [versionGt, lexLt, hne, hne2, hnlt]
            · simp [versionLt, lexLt, hlt]
          · subst heq
            refine ⟨?_, ?_, ?_⟩
            · simp [versionEq, he]
            · simp [versionGt, lexLt, hg]
            · simp [versionLt, lexLt, hl]
          · have hne : ¬ x = y := Nat.ne_of_gt hgt
            have hne2 : ¬ y = x := Nat.ne_of_lt hgt
            have hnlt : ¬ x < y := Nat.lt_asymm hgt
            refine ⟨?_, ?_, ?_⟩
            · simp [versionEq, hne]
            · simp [versionGt, lexLt, hgt]
            · simp [versionLt, lexLt, hne, hne2, hnlt]

theorem version_ge_le_eqLen (a b : List Nat) (h : a.length = b.length) :
    versionGe a b = Except.ok (!lexLt a b)
    ∧ versionLe a b = Except.ok (!lexLt b a) := by
  obtain ⟨he, hg, hl⟩ := version_cmp_eqLen a b h
  constructor
  · rw [versionGe, he]
    by_cases hab : a = b
    · subst hab
      simp [lexLt_irrefl]
    · rw [decide_eq_false_iff_not.mpr hab]
      show versionGt a b = Except.ok (!lexLt a b)
      rw [hg]
      rcases lexLt_connex a b h hab with h1 | h1
      · rw [h1, lexLt_asymm a b h1]
        rfl
      · rw [h1, lexLt_asymm b a h1]
        rfl
  · rw [versionLe, he]
    by_cases hab : a = b
    · subst hab
      simp [lexLt_irrefl]
    · rw [decide_eq_false_iff_not.mpr hab]
      show versionLt a b = Except.ok (!lexLt b a)
      rw [hl]
      rcases lexLt_connex a b h hab with h1 | h1
      · rw [h1, lexLt_asymm a b h1]
        rfl
      · rw [h1, lexLt_asymm b a h1]
        rfl

/-- Claim C9 (amended): for every pair of version strings whose
`string_to_tuple` integer sequences have equal length, the custom
pairwise operators agree with the standard lexicographic comparison of
those sequences (`__eq__` with equality, `__gt__`/`__lt__` with strict
lexicographic order, `__ge__`/`__le__` with its negation).  For unequal
lengths the agreement fails: `__eq__` treats a proper prefix as equal,
or raises `IndexError` (see the counterexample). -/
theorem c9_version_lex_agree_amended (s t : List Char)
    (h : (string_to_tuple s).length = (string_to_tuple t).length) :
    versionEq (string_to_tuple s) (string_to_tuple t)
      = Except.ok (decide (string_to_tuple s = string_to_tuple t))
    ∧ versionGt (string_to_tuple s) (string_to_tuple t)
      = Except.ok (lexLt (string_to_tuple t) (string_to_tuple s))
    ∧ versionLt (string_to_tuple s) (string_to_tuple t)
      = Except.ok (lexLt (string_to_tuple s) (string_to_tuple t))
    ∧ versionGe (string_to_tuple s) (string_to_tuple t)
      = Except.ok (!lexLt (string_to_tuple s) (string_to_tuple t))
    ∧ versionLe (string_to_tuple s) (string_to_tuple t)
      = Except.ok (!lexLt (string_to_tuple t) (string_to_tuple s)) := by
  obtain ⟨he, hg, hl⟩ := version_cmp_eqLen (string_to_tuple s) (string_to_tuple t) h
  obtain ⟨hge, hle⟩ := version_ge_le_eqLen (string_to_tuple s) (string_to_tuple t) h
  exact ⟨he, hg, hl, hge, hle⟩

/-- Witness for C9 (amended) on the version strings "1.10.0rc1" and
"1.9.2", whose integer sequences `[1, 10, 0]` and `[1, 9, 2]` have
equal length. -/
theorem c9_witness :
    (string_to_tuple c9s).length = (string_to_tuple c9t).length
    ∧ versionGt (string_to_tuple c9s) (string_to_tuple c9t)
        = Except.ok (lexLt (string_to_tuple c9t) (string_to_tuple c9s))
    ∧ versionGe (string_to_tuple c9s) (string_to_tuple c9t)
        = Except.ok (!lexLt (string_to_tuple c9s) (string_to_tuple c9t)) := by
  have h := c9_version_lex_agree_amended c9s c9t (by decide)
  exact ⟨by decide, h.2.1, h.2.2.2.1⟩

/-! ## Claim C10 -/

theorem dictLookup_set {κ α : Type} [DecidableEq κ] :
    ∀ (d : List (κ × α)) (k : κ) (v : α), dictLookup (dictSet d k v) k = some v := by
  intro d k v
  induction d with
  | nil => simp [dictSet, dictLookup]
  | cons p rest ih =>
      by_cases hk : p.1 = k
      · simp [dictSet, dictLookup, hk]
      · simp [dictSet, dictLookup, hk, ih]

/-- Counterexample to C10: at the name "keys", which `dict` defines as
a method, the every-name claim fails — after `d.keys = 5` the item read
returns 5 but the attribute read returns the bound `dict.keys` method,
so the two access styles disagree; and an attribute read of "keys" on an
empty `AttribDict` returns the method instead of raising
`AttributeError`. -/
theorem c10_counterexample :
    pyGetAttribute dictTypeAttrs
        (attrSet ([] : List (String × Nat)) "keys" 5) "keys"
      = Except.ok (AttrRead.boundMethod "keys")
    ∧ itemGet (attrSet ([] : List (String × Nat)) "keys" 5) "keys" = Except.ok 5
    ∧ pyGetAttribute dictTypeAttrs ([] : List (String × Nat)) "keys"
      = Except.ok (AttrRead.boundMethod "keys") := by
  refine ⟨by decide, rfl, by decide⟩

/-- Claim C10 (amended): for every `AttribDict`, every key name NOT
shadowed by an attribute of the `dict` type, and every value: after
setting the attribute, both attribute access and item access return
that value; attribute get on such a name not present as a key raises
`AttributeError`, as does attribute delete on any name not present as a
key; and on non-shadowed names attribute-style and dictionary-style
access agree on the same underlying mapping.  For a name the type
defines (see the counterexample), the attribute read returns the bound
method regardless of the mapping and never raises `AttributeError`,
while assignment and deletion still reach the mapping through the
overridden dunders. -/
theorem c10_attribdict_agreement_amended {α : Type} (typeAttrs : List String)
    (d : List (String × α)) (name : String) (v : α)
    (hshadow : name ∉ typeAttrs) :
    pyGetAttribute typeAttrs (attrSet d name v) name
        = Except.ok (AttrRead.item v)
    ∧ itemGet (attrSet d name v) name = Except.ok v
    ∧ (dictContains d name = false →
        pyGetAttribute typeAttrs d name
            = Except.error (PyError.attributeError ("No such attribute: " ++ name))
        ∧ attrDel d name
            = Except.error (PyError.attributeError ("No such attribute: " ++ name)))
    ∧ (∀ r : α, pyGetAttribute typeAttrs d name = Except.ok (AttrRead.item r)
        ↔ itemGet d name = Except.ok r) := by
  have hga : ∀ dd : List (String × α),
      pyGetAttribute typeAttrs dd name
        = match attrGet dd name with
          | Except.ok w => Except.ok (AttrRead.item w)
          | Except.error e => Except.error e := by
    intro dd
    rw [pyGetAttribute, if_neg hshadow]
  refine ⟨?_, ?_, ?_, ?_⟩
  · rw [hga]
    simp [attrGet, attrSet, dictLookup_set]
  · simp [itemGet, attrSet, dictLookup_set]
  · intro hc
    have hnone : dictLookup d name = none := by
      cases h : dictLookup d name with
      | none => rfl
      | some w => rw [dictContains, h] at hc; cases hc
    constructor
    · rw [hga]
      simp [attrGet, hnone]
    · simp [attrDel, hc]
  · intro r
    rw [hga]
    cases h : dictLookup d name with
    | none => simp [attrGet, itemGet, h]
    | some w => simp [attrGet, itemGet, h]

/-- Witness for C10 (amended) on the dictionary `[("a", 1)]` and the
name "b", which is not a `dict` type attribute. -/
theorem c10_amended_witness :
    ("b" : String) ∉ dictTypeAttrs
    ∧ pyGetAttribute dictTypeAttrs
        (attrSet [(("a" : String), (1 : Nat))] "b" 2) "b"
      = Except.ok (AttrRead.item 2)
    ∧ dictContains [(("a" : String), (1 : Nat))] "b" = false
    ∧ pyGetAttribute dictTypeAttrs [(("a" : String), (1 : Nat))] "b"
      = Except.error (PyError.attributeError "No such attribute: b") := by
  have h := c10_attribdict_agreement_amended dictTypeAttrs
    [(("a" : String), (1 : Nat))] "b" 2 (by decide)
  exact ⟨by decide, h.1, by decide, (h.2.2.1 (by decide)).1⟩

end MssTransmeta
